import Mathlib

/-!
Verification of the Route Relay backend (`app.py`): a Flask service that
validates a coordinate-pair request, forwards it to an OSRM-compatible
upstream, selects the candidate route with minimum `distance`, and relays
the chosen route's fields.

The handler is embedded shallowly: JSON values are an inductive type with
numbers as exact rationals (the code only compares and passes numbers
through, so no float rounding is observable in the properties treated
here), the upstream HTTP call is an oracle argument describing its
outcome, and a Python exception that Flask would turn into a 500 is
`Option.none`.
-/

namespace RouteRelay

/-- A JSON value as produced by Flask's `request.get_json` / consumed by
`jsonify`.  Objects keep insertion order, as Python dicts do. -/
inductive Json where
  | null
  | bool (b : Bool)
  | num (q : ℚ)
  | str (s : String)
  | arr (items : List Json)
  | obj (fields : List (String × Json))

/-- An HTTP response produced by the handler: status code plus the Python
value handed to `jsonify` (serialization itself is out of scope). -/
structure HttpResponse where
  status : Nat
  body : Json

/-- The module-level configuration read from the environment at startup
(`OSRM_BASE` on line 51, `OSRM_ALTERNATIVES` on line 55 of app.py).
`OSRM_TIMEOUT` only bounds the blocking call and never changes which
response is computed from a given upstream outcome, so it is omitted. -/
structure Config where
  osrmBase : String
  requestAlternatives : Bool
deriving DecidableEq

/-- The defaults hard-coded in app.py when no environment override is set. -/
def defaultConfig : Config :=
  { osrmBase := "https://router.project-osrm.org", requestAlternatives := true }

/-- First-match association-list lookup: Python `dict` access on the
parsed-JSON representation. -/
def alookup (k : String) : List (String × Json) → Option Json
  | [] => none
  | (k2, v) :: rest => if k2 = k then some v else alookup k rest

/-- `d[k]` / `d.get(k)` on a JSON value: `none` both for a missing key
(KeyError) and for subscripting a non-dict (TypeError), which the handler
treats alike. -/
def jlookup (d : Json) (k : String) : Option Json :=
  match d with
  | .obj kvs => alookup k kvs
  | _ => none

/-- Python truthiness of a parsed-JSON value. -/
def truthy : Json → Bool
  | .null => false
  | .bool b => b
  | .num q => q != 0
  | .str s => s != ""
  | .arr xs => !xs.isEmpty
  | .obj kvs => !kvs.isEmpty

/-- Line 106: `data = request.get_json(silent=True) or {}`.  `none` is a
missing or unparsable body (silent `get_json` yields `None`); a falsy
parsed value is replaced by the empty dict. -/
def effData : Option Json → Json
  | none => .obj []
  | some j => if truthy j then j else .obj []

/-- Python iterable unpacking `a, b = v` into exactly two targets:
succeeds for a two-element list, a two-character string (yielding its
characters), or a two-key dict (yielding its keys); any other value, or a
wrong length, raises.  JSON parsing gives dicts with distinct keys. -/
def unpack2 : Json → Option (Json × Json)
  | .arr [a, b] => some (a, b)
  | .str s =>
      match s.toList with
      | [c1, c2] => some (.str (String.mk [c1]), .str (String.mk [c2]))
      | _ => none
  | .obj [(k1, _), (k2, _)] => some (.str k1, .str k2)
  | _ => none

/-- Lines 106-112: extract `(lat1, lon1, lat2, lon2)`; `none` is the
`except Exception` path that returns the 400 response. -/
def validate (body : Option Json) : Option (Json × Json × Json × Json) :=
  let data := effData body
  match jlookup data "from" with
  | none => none
  | some f =>
    match unpack2 f with
    | none => none
    | some (lat1, lon1) =>
      match jlookup data "to" with
      | none => none
      | some t =>
        match unpack2 t with
        | none => none
        | some (lat2, lon2) => some (lat1, lon1, lat2, lon2)

/-- The 400 response of line 113. -/
def invalidResp : HttpResponse :=
  ⟨400, .obj [("error", .str "Body must include \x27from\x27 and \x27to\x27 as [lat, lon]")]⟩

/-- Python `str()` of a parsed-JSON value as interpolated into the f-string
on line 116.  Decimal rendering of non-integer floats and of containers is
abstracted; the properties below depend only on the positional structure
of the URL, never on the digits of a rendered coordinate. -/
def pyStr : Json → String
  | .null => "None"
  | .bool b => if b then "True" else "False"
  | .num q => if q.den = 1 then toString q.num else toString q
  | .str s => s
  | .arr _ => "[...]"
  | .obj _ => "\x7b...\x7d"

/-- Line 116: `coords = f"{lon1},{lat1};{lon2},{lat2}"`. -/
def osrmCoords (lat1 lon1 lat2 lon2 : Json) : String :=
  pyStr lon1 ++ "," ++ pyStr lat1 ++ ";" ++ pyStr lon2 ++ "," ++ pyStr lat2

/-- Line 117: the upstream URL. -/
def osrmUrl (cfg : Config) (lat1 lon1 lat2 lon2 : Json) : String :=
  cfg.osrmBase ++ "/route/v1/driving/" ++ osrmCoords lat1 lon1 lat2 lon2

/-- Lines 120-126: the query parameters, in insertion order. -/
def osrmParams (cfg : Config) : List (String × String) :=
  [("overview", "full"), ("geometries", "geojson"), ("steps", "false"),
   ("alternatives", if cfg.requestAlternatives then "true" else "false")]

/-- The GET request (URL and query parameters) the handler issues for a
given request body, or `none` when validation fails before any call. -/
def upstreamRequest (cfg : Config) (body : Option Json) : Option (String × List (String × String)) :=
  (validate body).map fun c => (osrmUrl cfg c.1 c.2.1 c.2.2.1 c.2.2.2, osrmParams cfg)

/-- Outcome of `requests.get` on line 130 as observed by the handler:
either a raised `RequestException` (network failure / timeout), or a
response with a status code, raw text, and — when the text parses — its
JSON value (`none` in that position means `r.json()` would raise). -/
inductive UpstreamOutcome where
  | exn (msg : String)
  | resp (status : Nat) (text : String) (jbody : Option Json)

/-- A sort key produced by `rt.get("distance", inf)` on line 143: a number
(Python bools count as numbers), the `inf` default, a string, or some
other value.  Comparisons between keys of incompatible kinds raise. -/
inductive PyKey where
  | num (q : ℚ)
  | infty
  | str (s : String)
  | other (v : Json)

/-- `rt.get("distance", inf)`; `none` is the AttributeError raised when a
list element is not a dict. -/
def routeKey (rt : Json) : Option PyKey :=
  match rt with
  | .obj kvs =>
      some (match alookup "distance" kvs with
        | some (.num q) => .num q
        | some (.bool b) => .num (if b then 1 else 0)
        | some (.str s) => .str s
        | some v => .other v
        | none => .infty)
  | _ => none

/-- Python `<` between two sort keys; `none` is a TypeError.  Comparisons
between two container values are abstracted as errors; no property below
involves a container-valued `distance`. -/
def keyLt : PyKey → PyKey → Option Bool
  | .num a, .num b => some (decide (a < b))
  | .num _, .infty => some true
  | .infty, .num _ => some false
  | .infty, .infty => some false
  | .str a, .str b => some (decide (a < b))
  | _, _ => none

/-- The scan of Python `min(·, key=...)` after the first element: keep the
current best unless a strictly smaller key appears. -/
def pyMinAux (best : Json) (bk : PyKey) : List Json → Option Json
  | [] => some best
  | x :: xs =>
      match routeKey x with
      | none => none
      | some kx =>
          match keyLt kx bk with
          | none => none
          | some b => if b then pyMinAux x kx xs else pyMinAux best bk xs

/-- Line 143: `min(routes, key=lambda rt: rt.get("distance", inf))`. -/
def pyMin : List Json → Option Json
  | [] => none
  | x :: xs =>
      match routeKey x with
      | none => none
      | some kx => pyMinAux x kx xs

/-- Line 138: `routes = resp.get("routes") or []`, composed with how line
143 consumes the result: `none` when `resp` is not a dict, or when the
`routes` value is truthy but not a list (both raise downstream). -/
def effRoutes (resp : Json) : Option (List Json) :=
  match resp with
  | .obj kvs =>
      match alookup "routes" kvs with
      | none => some []
      | some v =>
          if truthy v then
            match v with
            | .arr xs => some xs
            | _ => none
          else some []
  | _ => none

/-- `rt.get(k)` with the `None` default: `none` when `rt` is not a dict. -/
def pyGet (rt : Json) (k : String) : Option Json :=
  match rt with
  | .obj kvs => some ((alookup k kvs).getD .null)
  | _ => none

/-- The value `rt.get(k)` yields on a dict, with absence as JSON null. -/
def pyGetD (rt : Json) (k : String) : Json :=
  (jlookup rt k).getD .null

/-- The 200 response body of lines 145-149, built from the chosen route. -/
def okBody (shortest : Json) : Json :=
  .obj [("distance_m", pyGetD shortest "distance"),
        ("duration_s", pyGetD shortest "duration"),
        ("geometry", pyGetD shortest "geometry")]

/-- Lines 129-149: everything after validation, as a function of the
upstream outcome. -/
def handleUpstream (u : UpstreamOutcome) : Option HttpResponse :=
  match u with
  | .exn msg => some ⟨502, .obj [("error", .str ("OSRM request failed: " ++ msg))]⟩
  | .resp status text jbody =>
      if status ≠ 200 then
        some ⟨502, .obj [("error", .str "OSRM response error"),
                         ("status", .num (status : ℚ)), ("body", .str text)]⟩
      else
        match jbody with
        | none => none
        | some parsed =>
            match effRoutes parsed with
            | none => none
            | some routes =>
                if routes.isEmpty then
                  some ⟨404, .obj [("error", .str "No route found")]⟩
                else
                  match pyMin routes with
                  | none => none
                  | some shortest =>
                      match pyGet shortest "distance", pyGet shortest "duration",
                            pyGet shortest "geometry" with
                      | some d, some du, some g =>
                          some ⟨200, .obj [("distance_m", d), ("duration_s", du),
                                           ("geometry", g)]⟩
                      | _, _, _ => none

/-- The POST /route handler (lines 71-149) for one request: the request
body (`none` = missing or unparsable JSON), the configuration, and the
outcome of the single outbound call.  `none` is an unhandled exception
(Flask 500); the handler never mutates any state, so the whole request is
this pure function. -/
def route (cfg : Config) (body : Option Json) (u : UpstreamOutcome) : Option HttpResponse :=
  match validate body with
  | none => some invalidResp
  | some c =>
      let _req := (osrmUrl cfg c.1 c.2.1 c.2.2.1 c.2.2.2, osrmParams cfg)
      handleUpstream u

/-- The GET /health handler (lines 60-66): Flask turns the returned dict
into a 200 JSON response. -/
def health : HttpResponse :=
  ⟨200, .obj [("status", .str "ok")]⟩

/-! ## Analysis of the selection step -/

/-- The effective sort key of a candidate whose `distance` is a number or
absent: the two kinds of key line 143 produces for well-typed upstreams. -/
inductive EDist where
  | fin (q : ℚ)
  | top
deriving DecidableEq

/-- Strict order on effective keys, matching Python `<` with `inf`. -/
def edLt : EDist → EDist → Bool
  | .fin a, .fin b => decide (a < b)
  | .fin _, .top => true
  | .top, _ => false

/-- The effective key of a candidate: a number (bools count numerically in
Python), or `top` when `distance` is absent; `none` when the candidate is
not a dict or carries a non-numeric `distance`. -/
def eDist (r : Json) : Option EDist :=
  match r with
  | .obj kvs =>
      match alookup "distance" kvs with
      | some (.num q) => some (.fin q)
      | some (.bool b) => some (.fin (if b then 1 else 0))
      | none => some .top
      | some _ => none
  | _ => none

/-- The effective key, defaulting to `top`. -/
def eD (r : Json) : EDist := (eDist r).getD .top

/-- Embed an effective key into the key type of line 143. -/
def toKey : EDist → PyKey
  | .fin q => .num q
  | .top => .infty

/-- The numeric `distance` field of a candidate, when it has one. -/
def numDist (r : Json) : Option ℚ :=
  match r with
  | .obj kvs =>
      match alookup "distance" kvs with
      | some (.num q) => some q
      | _ => none
  | _ => none

theorem edLt_irrefl (a : EDist) : edLt a a = false := by
  cases a <;> simp [edLt]

theorem edLt_asymm {a b : EDist} (h : edLt a b = true) : edLt b a = false := by
  cases a <;> cases b <;> simp_all [edLt] <;> linarith

theorem edLt_trans {a b c : EDist} (h1 : edLt a b = true) (h2 : edLt b c = true) :
    edLt a c = true := by
  cases a <;> cases b <;> cases c <;> simp_all [edLt] <;> linarith

theorem edLt_of_lt_of_not_lt {a b c : EDist} (h1 : edLt a b = true)
    (h2 : edLt c b = false) : edLt a c = true := by
  cases a <;> cases b <;> cases c <;> simp_all [edLt] <;> linarith

theorem routeKey_of_eDist {r : Json} {e : EDist} (h : eDist r = some e) :
    routeKey r = some (toKey e) := by
  cases r with
  | obj kvs =>
      simp only [eDist] at h
      simp only [routeKey]
      cases hv : alookup "distance" kvs with
      | none =>
          rw [hv] at h
          injection h with h
          subst h
          rfl
      | some v =>
          rw [hv] at h
          cases v with
          | num q => injection h with h; subst h; rfl
          | bool b => injection h with h; subst h; rfl
          | null => exact absurd h (by simp)
          | str s => exact absurd h (by simp)
          | arr items => exact absurd h (by simp)
          | obj fields => exact absurd h (by simp)
  | null => exact absurd h (by simp [eDist])
  | bool b => exact absurd h (by simp [eDist])
  | num q => exact absurd h (by simp [eDist])
  | str s => exact absurd h (by simp [eDist])
  | arr items => exact absurd h (by simp [eDist])

theorem keyLt_toKey (a b : EDist) : keyLt (toKey a) (toKey b) = some (edLt a b) := by
  cases a <;> cases b <;> simp [toKey, keyLt, edLt]

/-- Pure reformulation of the `min` scan over effective keys. -/
def foldMinE (best : Json) (db : EDist) : List Json → Json
  | [] => best
  | x :: xs => if edLt (eD x) db then foldMinE x (eD x) xs else foldMinE best db xs

theorem pyMinAux_eq_foldMinE (l : List Json) : ∀ (best : Json) (db : EDist),
    (∀ r ∈ l, (eDist r).isSome) →
    pyMinAux best (toKey db) l = some (foldMinE best db l) := by
  induction l with
  | nil => intro best db _; rfl
  | cons x xs ih =>
      intro best db h
      have hx : (eDist x).isSome := h x (List.mem_cons_self x xs)
      obtain ⟨e, he⟩ := Option.isSome_iff_exists.mp hx
      have hkey := routeKey_of_eDist he
      have heD : eD x = e := by simp [eD, he]
      have hrest : ∀ r ∈ xs, (eDist r).isSome :=
        fun r hr => h r (List.mem_cons_of_mem _ hr)
      simp only [pyMinAux, hkey, keyLt_toKey, foldMinE, heD]
      by_cases hlt : edLt e db = true
      · simp only [hlt, if_true]; exact ih x e hrest
      · simp only [Bool.not_eq_true] at hlt
        simp only [hlt, if_false]; exact ih best db hrest

/-- The scan returns the first element attaining the minimum effective
key: either the seed, when nothing beats it, or the unique element that is
strictly below the seed, strictly below everything before it, and not
above anything in the list. -/
theorem foldMinE_spec (l : List Json) : ∀ (best : Json) (db : EDist),
    (foldMinE best db l = best ∧ ∀ r ∈ l, edLt (eD r) db = false) ∨
    (∃ pre r suf, l = pre ++ r :: suf ∧ foldMinE best db l = r ∧
      edLt (eD r) db = true ∧ (∀ p ∈ pre, edLt (eD r) (eD p) = true) ∧
      (∀ p ∈ l, edLt (eD p) (eD r) = false)) := by
  induction l with
  | nil => intro best db; left; exact ⟨rfl, by simp⟩
  | cons x xs ih =>
      intro best db
      by_cases hlt : edLt (eD x) db = true
      · rcases ih x (eD x) with ⟨heq, hall⟩ | ⟨pre, r, suf, hdec, heq, hrlt, hpre, hall⟩
        · right
          refine ⟨[], x, xs, rfl, ?_, hlt, by simp, ?_⟩
          · simp [foldMinE, hlt, heq]
          · intro p hp
            rcases List.mem_cons.mp hp with hp | hp
            · subst hp; exact edLt_irrefl _
            · exact hall p hp
        · right
          refine ⟨x :: pre, r, suf, by simp [hdec], ?_, edLt_trans hrlt hlt, ?_, ?_⟩
          · simp [foldMinE, hlt, heq]
          · intro p hp
            rcases List.mem_cons.mp hp with hp | hp
            · subst hp; exact hrlt
            · exact hpre p hp
          · intro p hp
            rcases List.mem_cons.mp hp with hp | hp
            · subst hp; exact edLt_asymm hrlt
            · exact hall p hp
      · have hlt' : edLt (eD x) db = false := by
          simpa using hlt
        rcases ih best db with ⟨heq, hall⟩ | ⟨pre, r, suf, hdec, heq, hrlt, hpre, hall⟩
        · left
          refine ⟨by simp [foldMinE, hlt', heq], ?_⟩
          intro p hp
          rcases List.mem_cons.mp hp with hp | hp
          · subst hp; exact hlt'
          · exact hall p hp
        · right
          refine ⟨x :: pre, r, suf, by simp [hdec], ?_, hrlt, ?_, ?_⟩
          · simp [foldMinE, hlt', heq]
          · intro p hp
            rcases List.mem_cons.mp hp with hp | hp
            · subst hp; exact edLt_of_lt_of_not_lt hrlt hlt'
            · exact hpre p hp
          · intro p hp
            rcases List.mem_cons.mp hp with hp | hp
            · subst hp; exact edLt_asymm (edLt_of_lt_of_not_lt hrlt hlt')
            · exact hall p hp

theorem pyMinAux_mem (l : List Json) : ∀ (best : Json) (bk : PyKey) (res : Json),
    pyMinAux best bk l = some res → res = best ∨ res ∈ l := by
  induction l with
  | nil =>
      intro best bk res h
      simp only [pyMinAux, Option.some.injEq] at h
      exact Or.inl h.symm
  | cons x xs ih =>
      intro best bk res h
      cases hk : routeKey x with
      | none => simp [pyMinAux, hk] at h
      | some kx =>
          simp only [pyMinAux, hk] at h
          cases hl : keyLt kx bk with
          | none => simp [hl] at h
          | some b =>
              simp only [hl] at h
              cases b with
              | true =>
                  simp only [if_pos rfl] at h
                  rcases ih x kx res h with h' | h'
                  · exact Or.inr (by simp [h'])
                  · exact Or.inr (List.mem_cons_of_mem _ h')
              | false =>
                  rw [if_neg (by simp)] at h
                  rcases ih best bk res h with h' | h'
                  · exact Or.inl h'
                  · exact Or.inr (List.mem_cons_of_mem _ h')

theorem pyMin_mem {l : List Json} {res : Json} (h : pyMin l = some res) : res ∈ l := by
  cases l with
  | nil => exact absurd h (by simp [pyMin])
  | cons x xs =>
      cases hk : routeKey x with
      | none => simp [pyMin, hk] at h
      | some kx =>
          simp only [pyMin, hk] at h
          rcases pyMinAux_mem xs x kx res h with h' | h'
          · simp [h']
          · exact List.mem_cons_of_mem _ h'

/-- Master characterization of a successful request: when validation
passes and the upstream answers 200 with a non-empty `routes` list whose
members are dicts with numeric-or-absent `distance`, the handler returns
200 with the fields of the first candidate attaining the minimum
effective key (absent `distance` counting as `inf`). -/
theorem route_success (cfg : Config) (body : Option Json) (t : String) (rs : List Json)
    (hv : (validate body).isSome = true)
    (hd : ∀ r ∈ rs, (eDist r).isSome)
    (hn : rs ≠ []) :
    ∃ pre sel suf, rs = pre ++ sel :: suf ∧
      route cfg body (.resp 200 t (some (.obj [("routes", .arr rs)]))) =
        some ⟨200, okBody sel⟩ ∧
      (∀ p ∈ pre, edLt (eD sel) (eD p) = true) ∧
      (∀ p ∈ rs, edLt (eD p) (eD sel) = false) := by
  obtain ⟨c, hc⟩ := Option.isSome_iff_exists.mp hv
  cases rs with
  | nil => exact absurd rfl hn
  | cons r0 rest =>
      obtain ⟨e0, he0⟩ := Option.isSome_iff_exists.mp (hd r0 (List.mem_cons_self r0 rest))
      have he0D : eD r0 = e0 := by simp [eD, he0]
      have hkey := routeKey_of_eDist he0
      have haux := pyMinAux_eq_foldMinE rest r0 e0
        (fun r hr => hd r (List.mem_cons_of_mem _ hr))
      have hpm : pyMin (r0 :: rest) = some (foldMinE r0 e0 rest) := by
        simp only [pyMin, hkey]; exact haux
      have hselmem : foldMinE r0 e0 rest ∈ r0 :: rest := pyMin_mem hpm
      obtain ⟨esel, hesel⟩ := Option.isSome_iff_exists.mp (hd _ hselmem)
      obtain ⟨kvs, hkvs⟩ : ∃ kvs, foldMinE r0 e0 rest = Json.obj kvs := by
        cases hsel : foldMinE r0 e0 rest <;> rw [hsel] at hesel
        case obj fields => exact ⟨fields, rfl⟩
        all_goals simp [eDist] at hesel
      have hroute : route cfg body (.resp 200 t (some (.obj [("routes", .arr (r0 :: rest))]))) =
          some ⟨200, okBody (foldMinE r0 e0 rest)⟩ := by
        simp only [route, hc, handleUpstream, effRoutes, alookup, truthy]
        simp only [if_pos rfl, List.isEmpty_cons, ne_eq, not_true_eq_false, if_false,
          Bool.not_false, if_true]
        rw [hpm, hkvs]
        simp [pyGet, okBody, pyGetD, jlookup]
      rcases foldMinE_spec rest r0 e0 with ⟨heq, hall⟩ | ⟨pre, sel', suf, hdec, heq, hlt, hpre, hall⟩
      · refine ⟨[], r0, rest, rfl, ?_, by simp, ?_⟩
        · rw [heq] at hroute; exact hroute
        · intro p hp
          rw [he0D]
          rcases List.mem_cons.mp hp with hp | hp
          · subst hp; rw [he0D]; exact edLt_irrefl e0
          · exact hall p hp
      · refine ⟨r0 :: pre, sel', suf, by simp [hdec], ?_, ?_, ?_⟩
        · rw [heq] at hroute; exact hroute
        · intro p hp
          rcases List.mem_cons.mp hp with hp | hp
          · subst hp; rw [he0D]; exact hlt
          · exact hpre p hp
        · intro p hp
          rcases List.mem_cons.mp hp with hp | hp
          · subst hp
            rw [he0D]
            exact edLt_asymm hlt
          · exact hall p hp

/-! ## Bridging facts between field values and effective keys -/

theorem numDist_eDist {r : Json} {q : ℚ} (h : numDist r = some q) :
    eDist r = some (.fin q) ∧ jlookup r "distance" = some (.num q) := by
  cases r with
  | obj kvs =>
      simp only [numDist] at h
      simp only [eDist, jlookup]
      cases hv : alookup "distance" kvs with
      | none => rw [hv] at h; exact absurd h (by simp)
      | some v => rw [hv] at h; cases v <;> simp_all
  | null => exact absurd h (by simp [numDist])
  | bool b => exact absurd h (by simp [numDist])
  | num q2 => exact absurd h (by simp [numDist])
  | str s => exact absurd h (by simp [numDist])
  | arr items => exact absurd h (by simp [numDist])

/-- A candidate is a dict whose `distance`, when present, is a number:
the shape the upstream contract promises for each route. -/
def distOkB (r : Json) : Bool :=
  match r with
  | .obj kvs =>
      match alookup "distance" kvs with
      | none => true
      | some (.num _) => true
      | some _ => false
  | _ => false

theorem distOkB_isSome {r : Json} (h : distOkB r = true) : (eDist r).isSome = true := by
  cases r with
  | obj kvs =>
      simp only [eDist]
      cases hv : alookup "distance" kvs with
      | none => simp
      | some v =>
          simp only [distOkB, hv] at h
          cases v <;> simp_all
  | null => exact absurd h (by simp [distOkB])
  | bool b => exact absurd h (by simp [distOkB])
  | num q => exact absurd h (by simp [distOkB])
  | str s => exact absurd h (by simp [distOkB])
  | arr items => exact absurd h (by simp [distOkB])

theorem distOkB_fin {r : Json} {d : ℚ} (h : distOkB r = true) (he : eD r = .fin d) :
    jlookup r "distance" = some (.num d) ∧ numDist r = some d := by
  cases r with
  | obj kvs =>
      simp only [eD, eDist] at he
      simp only [jlookup, numDist]
      cases hv : alookup "distance" kvs with
      | none => rw [hv] at he; exact absurd he (by simp)
      | some v =>
          simp only [distOkB, hv] at h
          rw [hv] at he
          cases v <;> simp_all
  | null => exact absurd h (by simp [distOkB])
  | bool b => exact absurd h (by simp [distOkB])
  | num q => exact absurd h (by simp [distOkB])
  | str s => exact absurd h (by simp [distOkB])
  | arr items => exact absurd h (by simp [distOkB])

theorem eD_top_of_no_distance {r : Json} {kvs : List (String × Json)}
    (hr : r = Json.obj kvs) (h : jlookup r "distance" = none) : eD r = .top := by
  subst hr
  simp only [jlookup] at h
  simp [eD, eDist, h]

theorem distOkB_obj {r : Json} (h : distOkB r = true) : ∃ kvs, r = Json.obj kvs := by
  cases r with
  | obj kvs => exact ⟨kvs, rfl⟩
  | null => exact absurd h (by simp [distOkB])
  | bool b => exact absurd h (by simp [distOkB])
  | num q => exact absurd h (by simp [distOkB])
  | str s => exact absurd h (by simp [distOkB])
  | arr items => exact absurd h (by simp [distOkB])

theorem edLt_fin_not_top {q : ℚ} {e : EDist} (h : edLt (.fin q) e = false) :
    ∃ d, e = EDist.fin d ∧ d ≤ q := by
  cases e with
  | top => exact absurd h (by simp [edLt])
  | fin d =>
      refine ⟨d, rfl, ?_⟩
      simp only [edLt, decide_eq_false_iff_not, not_lt] at h
      exact h

theorem effRoutes_nonempty {j : Json} {rs : List Json} (h : effRoutes j = some rs)
    (hn : rs.isEmpty = false) : jlookup j "routes" = some (.arr rs) := by
  cases j with
  | obj kvs =>
      simp only [effRoutes] at h
      simp only [jlookup]
      cases hv : alookup "routes" kvs with
      | none =>
          rw [hv] at h
          injection h with h
          rw [← h] at hn
          exact absurd hn (by simp)
      | some v =>
          simp only [hv] at h
          by_cases ht : truthy v = true
          · rw [if_pos ht] at h
            cases v <;> simp_all
          · rw [if_neg ht] at h
            injection h with h
            rw [← h] at hn
            exact absurd hn (by simp)
  | null => exact absurd h (by simp [effRoutes])
  | bool b => exact absurd h (by simp [effRoutes])
  | num q => exact absurd h (by simp [effRoutes])
  | str s => exact absurd h (by simp [effRoutes])
  | arr items => exact absurd h (by simp [effRoutes])

/-- A two-element numeric JSON array. -/
def isPair : Json → Bool
  | .arr [.num _, .num _] => true
  | _ => false

/-- The candidate's `geometry.coordinates` is a non-empty list of
two-element numeric pairs. -/
def geomOkB (r : Json) : Bool :=
  match jlookup (pyGetD r "geometry") "coordinates" with
  | some (.arr pts) => !pts.isEmpty && pts.all isPair
  | _ => false

/-! ## Concrete data for witnesses and counterexamples -/

/-- The request body of the spec's concrete scenario. -/
def scenarioBody : Json :=
  .obj [("from", .arr [.num 40, .num (-37/10)]), ("to", .arr [.num 41, .num (-36/10)])]

/-- A well-formed geometry with one coordinate pair. -/
def goodGeometry : Json :=
  .obj [("type", .str "LineString"), ("coordinates", .arr [.arr [.num 1, .num 2]])]

/-- Candidate of 5000 m. -/
def routeA : Json :=
  .obj [("distance", .num 5000), ("duration", .num 300), ("geometry", goodGeometry)]

/-- Candidate of 4200 m. -/
def routeB : Json :=
  .obj [("distance", .num 4200), ("duration", .num 280), ("geometry", goodGeometry)]

/-- The spec scenario's candidate list: 5000 m then 4200 m. -/
def scenarioRoutes : List Json := [routeA, routeB]

/-- A geometry whose coordinate list is empty. -/
def emptyGeometry : Json :=
  .obj [("type", .str "LineString"), ("coordinates", .arr [])]

/-- A candidate whose geometry has no coordinates. -/
def emptyGeoRoute : Json :=
  .obj [("distance", .num 5), ("duration", .num 7), ("geometry", emptyGeometry)]

/-- A 200 upstream outcome whose only candidate has empty geometry. -/
def emptyGeoUpstream : UpstreamOutcome :=
  .resp 200 "" (some (.obj [("routes", .arr [emptyGeoRoute])]))

/-- A body whose "from" is a two-element array of strings: not a numeric
pair, yet it unpacks fine. -/
def nonNumericBody : Json :=
  .obj [("from", .arr [.str "a", .str "b"]), ("to", .arr [.num 1, .num 2])]

/-- The configuration with alternatives disabled. -/
def noAltConfig : Config :=
  { osrmBase := "https://router.project-osrm.org", requestAlternatives := false }

/-- A candidate with a numeric distance and well-formed geometry. -/
def goodRoute : Json :=
  .obj [("distance", .num 5), ("duration", .num 7), ("geometry", goodGeometry)]

/-- A 200 upstream outcome with a single well-formed candidate. -/
def goodUpstream : UpstreamOutcome :=
  .resp 200 "" (some (.obj [("routes", .arr [goodRoute])]))

/-- Candidates lacking a `distance` field. -/
def noDistRouteA : Json := .obj [("duration", .num 1), ("geometry", goodGeometry)]

/-- Second candidate lacking a `distance` field. -/
def noDistRouteB : Json := .obj [("duration", .num 2), ("geometry", goodGeometry)]

/-! ## Claims -/

/-- C1: for a valid request whose upstream answers 200 with N ≥ 1
candidate routes all carrying a numeric `distance`, the handler returns
the first candidate attaining the minimum `distance` (so `distance_m` is
the global minimum and ties break by upstream order), and when N = 1 the
sole candidate is returned unconditionally. -/
theorem claim1_shortest_selection (cfg : Config) (body : Option Json) (t : String)
    (rs : List Json)
    (hv : (validate body).isSome = true)
    (hd : (rs.all fun r => (numDist r).isSome) = true)
    (hn : rs.isEmpty = false) :
    ∃ pre sel suf d, rs = pre ++ sel :: suf ∧ numDist sel = some d ∧
      route cfg body (.resp 200 t (some (.obj [("routes", .arr rs)]))) =
        some ⟨200, okBody sel⟩ ∧
      jlookup (okBody sel) "distance_m" = some (.num d) ∧
      (∀ p ∈ rs, ∀ q, numDist p = some q → d ≤ q) ∧
      (∀ p ∈ pre, ∀ q, numDist p = some q → d < q) ∧
      (rs.length = 1 → rs = [sel]) := by
  have hd' : ∀ r ∈ rs, (numDist r).isSome = true := List.all_eq_true.mp hd
  have hde : ∀ r ∈ rs, (eDist r).isSome = true := by
    intro r hr
    obtain ⟨q, hq⟩ := Option.isSome_iff_exists.mp (hd' r hr)
    rw [(numDist_eDist hq).1]
    rfl
  have hn' : rs ≠ [] := by
    intro h
    rw [h] at hn
    exact absurd hn (by simp)
  obtain ⟨pre, sel, suf, hdec, hroute, hpre, hall⟩ :=
    route_success cfg body t rs hv hde hn'
  have hselmem : sel ∈ rs := by
    rw [hdec]; exact List.mem_append_right pre (List.mem_cons_self sel suf)
  obtain ⟨d, hd2⟩ := Option.isSome_iff_exists.mp (hd' sel hselmem)
  have heDsel : eD sel = .fin d := by
    simp [eD, (numDist_eDist hd2).1]
  refine ⟨pre, sel, suf, d, hdec, hd2, hroute, ?_, ?_, ?_, ?_⟩
  · have h3 : jlookup (okBody sel) "distance_m" = some (pyGetD sel "distance") := by
      simp [okBody, jlookup, alookup]
    rw [h3]
    simp only [pyGetD, (numDist_eDist hd2).2, Option.getD_some]
  · intro p hp q hq
    have h1 := hall p hp
    have heDp : eD p = .fin q := by simp [eD, (numDist_eDist hq).1]
    rw [heDp, heDsel] at h1
    simp only [edLt, decide_eq_false_iff_not, not_lt] at h1
    exact h1
  · intro p hp q hq
    have h1 := hpre p hp
    have heDp : eD p = .fin q := by simp [eD, (numDist_eDist hq).1]
    rw [heDp, heDsel] at h1
    simpa [edLt] using h1
  · intro h1
    rw [hdec] at h1
    simp only [List.length_append, List.length_cons] at h1
    have hp0 : pre = [] := List.eq_nil_of_length_eq_zero (by omega)
    have hs0 : suf = [] := List.eq_nil_of_length_eq_zero (by omega)
    rw [hdec, hp0, hs0]
    rfl

/-- C1 witness: the spec's concrete scenario — candidates of 5000 m and
4200 m — instantiates the theorem, selecting the 4200 m candidate. -/
theorem claim1_witness :
    ∃ pre sel suf d, scenarioRoutes = pre ++ sel :: suf ∧ numDist sel = some d ∧
      route defaultConfig (some scenarioBody)
          (.resp 200 "" (some (.obj [("routes", .arr scenarioRoutes)]))) =
        some ⟨200, okBody sel⟩ ∧
      jlookup (okBody sel) "distance_m" = some (.num d) ∧
      (∀ p ∈ scenarioRoutes, ∀ q, numDist p = some q → d ≤ q) ∧
      (∀ p ∈ pre, ∀ q, numDist p = some q → d < q) ∧
      (scenarioRoutes.length = 1 → scenarioRoutes = [sel]) :=
  claim1_shortest_selection defaultConfig (some scenarioBody) "" scenarioRoutes rfl rfl rfl

/-- C2 (as amended): when extracting the two coordinate pairs fails —
missing or unparsable body, missing "from"/"to" key, or a value that does
not unpack into exactly two elements — the handler answers 400 with an
`error` field, and the response does not depend on the upstream outcome
(no call is observable). -/
theorem claim2_invalid_request (cfg : Config) (body : Option Json) (u : UpstreamOutcome)
    (h : validate body = none) :
    route cfg body u = some invalidResp ∧ invalidResp.status = 400 ∧
    (jlookup invalidResp.body "error").isSome = true := by
  refine ⟨?_, rfl, rfl⟩
  simp [route, h]

/-- C2 witness: a missing body instantiates the theorem. -/
theorem claim2_witness :
    route defaultConfig none (.exn "x") = some invalidResp ∧ invalidResp.status = 400 ∧
    (jlookup invalidResp.body "error").isSome = true :=
  claim2_invalid_request defaultConfig none (.exn "x") rfl

/-- C2 counterexample: a "from" coordinate that is a two-element array of
strings — not a numeric array — passes validation, the upstream outcome
shapes the response, and the status is 502, not 400. -/
theorem claim2_counterexample :
    (validate (some nonNumericBody)).isSome = true ∧
    route defaultConfig (some nonNumericBody) (.exn "boom") =
      some ⟨502, .obj [("error", .str "OSRM request failed: boom")]⟩ ∧
    (502 : Nat) ≠ 400 := by
  refine ⟨rfl, rfl, by decide⟩

/-- C3: for a validated request, a raised network failure or timeout
yields 502 with an `error` field embedding the failure description, and a
non-200 upstream status yields 502 with the upstream status code and raw
body included. -/
theorem claim3_upstream_failure_502 (cfg : Config) (body : Option Json)
    (hv : (validate body).isSome = true) :
    (∀ msg, route cfg body (.exn msg) =
        some ⟨502, .obj [("error", .str ("OSRM request failed: " ++ msg))]⟩) ∧
    (∀ status text jbody, status ≠ 200 →
        route cfg body (.resp status text jbody) =
          some ⟨502, .obj [("error", .str "OSRM response error"),
                           ("status", .num (status : ℚ)), ("body", .str text)]⟩) := by
  obtain ⟨c, hc⟩ := Option.isSome_iff_exists.mp hv
  constructor
  · intro msg
    simp [route, hc, handleUpstream]
  · intro status text jbody hs
    simp [route, hc, handleUpstream, hs]

/-- C3 witness: a timeout and an upstream 500 instantiate the theorem. -/
theorem claim3_witness :
    route defaultConfig (some scenarioBody) (.exn "timeout") =
      some ⟨502, .obj [("error", .str "OSRM request failed: timeout")]⟩ ∧
    route defaultConfig (some scenarioBody) (.resp 500 "oops" none) =
      some ⟨502, .obj [("error", .str "OSRM response error"),
                       ("status", .num (500 : ℚ)), ("body", .str "oops")]⟩ :=
  ⟨(claim3_upstream_failure_502 defaultConfig (some scenarioBody) rfl).1 "timeout",
   (claim3_upstream_failure_502 defaultConfig (some scenarioBody) rfl).2 500 "oops" none
     (by decide)⟩

/-- C4: for a validated request, an upstream 200 whose `routes` key is
absent, null, or the empty list yields 404. -/
theorem claim4_no_routes_404 (cfg : Config) (body : Option Json) (t : String)
    (kvs : List (String × Json))
    (hv : (validate body).isSome = true)
    (hr : alookup "routes" kvs = none ∨ alookup "routes" kvs = some .null ∨
          alookup "routes" kvs = some (.arr [])) :
    route cfg body (.resp 200 t (some (.obj kvs))) =
      some ⟨404, .obj [("error", .str "No route found")]⟩ := by
  obtain ⟨c, hc⟩ := Option.isSome_iff_exists.mp hv
  rcases hr with hr | hr | hr
  all_goals simp [route, hc, handleUpstream, effRoutes, hr, truthy]

/-- C4 witness: an upstream body without a `routes` key instantiates the
theorem. -/
theorem claim4_witness :
    route defaultConfig (some scenarioBody) (.resp 200 "" (some (.obj [("code", .str "Ok")]))) =
      some ⟨404, .obj [("error", .str "No route found")]⟩ :=
  claim4_no_routes_404 defaultConfig (some scenarioBody) "" [("code", .str "Ok")] rfl
    (Or.inl rfl)

theorem pyGet_eq {r : Json} {k : String} {v : Json} (h : pyGet r k = some v) :
    v = pyGetD r k := by
  cases r with
  | obj kvs =>
      simp only [pyGet, Option.some.injEq] at h
      simp [pyGetD, jlookup, ← h]
  | null => exact absurd h (by simp [pyGet])
  | bool b => exact absurd h (by simp [pyGet])
  | num q => exact absurd h (by simp [pyGet])
  | str s => exact absurd h (by simp [pyGet])
  | arr items => exact absurd h (by simp [pyGet])

/-- C5: every 200 response of POST /route consists exactly of the
`distance`, `duration`, and `geometry` fields of one of the candidate
routes found in the upstream 200 body, passed through unchanged — the
handler fabricates none of them. -/
theorem claim5_passthrough (cfg : Config) (body : Option Json) (u : UpstreamOutcome)
    (resp : HttpResponse) (h : route cfg body u = some resp) (hs : resp.status = 200) :
    ∃ t j rs sel, u = .resp 200 t (some j) ∧ jlookup j "routes" = some (.arr rs) ∧
      sel ∈ rs ∧ resp.body = okBody sel := by
  cases hval : validate body with
  | none =>
      simp only [route, hval] at h
      injection h with h
      rw [← h] at hs
      exact absurd hs (by simp [invalidResp])
  | some c =>
      simp only [route, hval] at h
      cases u with
      | exn msg =>
          simp only [handleUpstream] at h
          injection h with h
          rw [← h] at hs
          exact absurd hs (by simp)
      | resp status text jbody =>
          simp only [handleUpstream] at h
          split at h
          · injection h with h
            rw [← h] at hs
            exact absurd hs (by simp)
          · rename_i h200
            have hstatus : status = 200 := not_ne_iff.mp h200
            subst hstatus
            split at h
            · exact absurd h (by simp)
            · rename_i parsed
              split at h
              · exact absurd h (by simp)
              · rename_i routes her
                split at h
                · injection h with h
                  rw [← h] at hs
                  exact absurd hs (by simp)
                · rename_i hne
                  split at h
                  · exact absurd h (by simp)
                  · rename_i shortest hmin
                    split at h
                    · rename_i d du g hgd hgdu hgg
                      injection h with h
                      refine ⟨text, parsed, routes, shortest, rfl, ?_, pyMin_mem hmin, ?_⟩
                      · exact effRoutes_nonempty her (by simpa using hne)
                      · rw [← h]
                        simp only [okBody, pyGet_eq hgd, pyGet_eq hgdu, pyGet_eq hgg]
                    · exact absurd h (by simp)

/-- C5 witness: a single well-formed candidate instantiates the theorem. -/
theorem claim5_witness :
    ∃ t j rs sel, goodUpstream = .resp 200 t (some j) ∧
      jlookup j "routes" = some (.arr rs) ∧ sel ∈ rs ∧
      (⟨200, okBody goodRoute⟩ : HttpResponse).body = okBody sel :=
  claim5_passthrough defaultConfig (some scenarioBody) goodUpstream
    ⟨200, okBody goodRoute⟩ rfl rfl

/-- C6 (as amended): for a valid request with numeric coordinates, the
upstream request is a GET to
`{base}/route/v1/driving/{lon1},{lat1};{lon2},{lat2}` — coordinates
reordered to longitude,latitude — with query parameters overview=full,
geometries=geojson, steps=false, and an `alternatives` parameter that is
always present: "true" when alternatives are requested, "false"
otherwise. -/
theorem claim6_request_construction (cfg : Config) (a1 o1 a2 o2 : ℚ) :
    upstreamRequest cfg (some (.obj [("from", .arr [.num a1, .num o1]),
                                     ("to", .arr [.num a2, .num o2])])) =
      some (cfg.osrmBase ++ "/route/v1/driving/" ++
              pyStr (.num o1) ++ "," ++ pyStr (.num a1) ++ ";" ++
              pyStr (.num o2) ++ "," ++ pyStr (.num a2),
            [("overview", "full"), ("geometries", "geojson"), ("steps", "false"),
             ("alternatives", if cfg.requestAlternatives then "true" else "false")]) := by
  have hval : validate (some (.obj [("from", .arr [.num a1, .num o1]),
                                    ("to", .arr [.num a2, .num o2])])) =
      some (.num a1, .num o1, .num a2, .num o2) := rfl
  simp [upstreamRequest, hval, osrmUrl, osrmCoords, osrmParams, String.append_assoc]

/-- C6 counterexample: with alternatives not requested, the `alternatives`
parameter is still present (set to "false"), not absent. -/
theorem claim6_counterexample :
    noAltConfig.requestAlternatives = false ∧
    ("alternatives", "false") ∈ osrmParams noAltConfig := by
  refine ⟨rfl, ?_⟩
  simp [osrmParams, noAltConfig]

/-- C7 (as amended): for a valid request answered 200, the response's
geometry is the selected candidate's geometry passed through unchanged;
whenever every upstream candidate's geometry coordinate list is non-empty
and made of two-element numeric pairs, so is the response's. -/
theorem claim7_geometry_conditional (cfg : Config) (body : Option Json) (t : String)
    (rs : List Json)
    (hv : (validate body).isSome = true)
    (hd : (rs.all distOkB) = true)
    (hg : (rs.all geomOkB) = true)
    (hn : rs.isEmpty = false) :
    ∃ sel pts, route cfg body (.resp 200 t (some (.obj [("routes", .arr rs)]))) =
        some ⟨200, okBody sel⟩ ∧
      jlookup (okBody sel) "geometry" = some (pyGetD sel "geometry") ∧
      jlookup (pyGetD sel "geometry") "coordinates" = some (.arr pts) ∧
      pts.isEmpty = false ∧ pts.all isPair = true := by
  have hd' := List.all_eq_true.mp hd
  have hg' := List.all_eq_true.mp hg
  have hde : ∀ r ∈ rs, (eDist r).isSome = true := fun r hr => distOkB_isSome (hd' r hr)
  have hn' : rs ≠ [] := by
    intro h
    rw [h] at hn
    exact absurd hn (by simp)
  obtain ⟨pre, sel, suf, hdec, hroute, _, _⟩ := route_success cfg body t rs hv hde hn'
  have hselmem : sel ∈ rs := by
    rw [hdec]; exact List.mem_append_right pre (List.mem_cons_self sel suf)
  have hgsel := hg' sel hselmem
  cases hco : jlookup (pyGetD sel "geometry") "coordinates" with
  | none => simp [geomOkB, hco] at hgsel
  | some v =>
      cases v with
      | arr pts =>
          simp only [geomOkB, hco, Bool.and_eq_true] at hgsel
          refine ⟨sel, pts, hroute, ?_, hco, ?_, hgsel.2⟩
          · simp [okBody, jlookup, alookup]
          · simpa using hgsel.1
      | null => simp [geomOkB, hco] at hgsel
      | bool b => simp [geomOkB, hco] at hgsel
      | num q => simp [geomOkB, hco] at hgsel
      | str s => simp [geomOkB, hco] at hgsel
      | obj fields => simp [geomOkB, hco] at hgsel

/-- C7 witness: a single candidate with one coordinate pair instantiates
the theorem. -/
theorem claim7_witness :
    ∃ sel pts, route defaultConfig (some scenarioBody)
        (.resp 200 "" (some (.obj [("routes", .arr [goodRoute])]))) =
        some ⟨200, okBody sel⟩ ∧
      jlookup (okBody sel) "geometry" = some (pyGetD sel "geometry") ∧
      jlookup (pyGetD sel "geometry") "coordinates" = some (.arr pts) ∧
      pts.isEmpty = false ∧ pts.all isPair = true :=
  claim7_geometry_conditional defaultConfig (some scenarioBody) "" [goodRoute]
    rfl rfl rfl rfl

/-- C7 counterexample: with an upstream whose only candidate carries an
empty coordinate list, a valid request yields a 200 response whose
geometry coordinate list is empty — the handler does not enforce
non-emptiness. -/
theorem claim7_counterexample :
    (validate (some scenarioBody)).isSome = true ∧
    route defaultConfig (some scenarioBody) emptyGeoUpstream =
      some ⟨200, okBody emptyGeoRoute⟩ ∧
    jlookup (okBody emptyGeoRoute) "geometry" = some emptyGeometry ∧
    jlookup emptyGeometry "coordinates" = some (.arr []) :=
  ⟨rfl, rfl, rfl, rfl⟩

/-- C8: the health check handler returns HTTP 200 with body
`status: ok`; it is a constant with no inputs, so no process state or
upstream condition can alter it and it has no failure path. -/
theorem claim8_health_ok :
    health.status = 200 ∧ health.body = .obj [("status", .str "ok")] :=
  ⟨rfl, rfl⟩

/-- C9: the request handler is a pure function of the request body, the
configuration, and the upstream outcome — the embedding threads no state
between requests — so two runs with equal inputs produce equal selected
routes and equal HTTP responses. -/
theorem claim9_deterministic (cfg1 cfg2 : Config) (b1 b2 : Option Json)
    (u1 u2 : UpstreamOutcome)
    (hc : cfg1 = cfg2) (hb : b1 = b2) (hu : u1 = u2) :
    route cfg1 b1 u1 = route cfg2 b2 u2 := by
  subst hc
  subst hb
  subst hu
  rfl

/-- C9 witness: two identical concrete runs coincide. -/
theorem claim9_witness :
    route defaultConfig (some scenarioBody) goodUpstream =
      route defaultConfig (some scenarioBody) goodUpstream :=
  claim9_deterministic defaultConfig defaultConfig (some scenarioBody)
    (some scenarioBody) goodUpstream goodUpstream rfl rfl rfl

/-- C10: over candidates that are dicts with numeric-or-absent
`distance`, a candidate lacking `distance` sorts as infinity: the
selection returns 200 without failing, never picks a distance-less
candidate while one with a distance exists, and when every candidate
lacks `distance` the first is selected and `distance_m` is null. -/
theorem claim10_distance_default (cfg : Config) (body : Option Json) (t : String)
    (rs : List Json)
    (hv : (validate body).isSome = true)
    (hd : (rs.all distOkB) = true)
    (hn : rs.isEmpty = false) :
    ∃ pre sel suf, rs = pre ++ sel :: suf ∧
      route cfg body (.resp 200 t (some (.obj [("routes", .arr rs)]))) =
        some ⟨200, okBody sel⟩ ∧
      ((∃ r ∈ rs, (numDist r).isSome = true) → (numDist sel).isSome = true) ∧
      ((∀ r ∈ rs, jlookup r "distance" = none) →
        pre = [] ∧ jlookup (okBody sel) "distance_m" = some .null) := by
  have hd' := List.all_eq_true.mp hd
  have hde : ∀ r ∈ rs, (eDist r).isSome = true := fun r hr => distOkB_isSome (hd' r hr)
  have hn' : rs ≠ [] := by
    intro h
    rw [h] at hn
    exact absurd hn (by simp)
  obtain ⟨pre, sel, suf, hdec, hroute, hpre, hall⟩ := route_success cfg body t rs hv hde hn'
  have hselmem : sel ∈ rs := by
    rw [hdec]; exact List.mem_append_right pre (List.mem_cons_self sel suf)
  refine ⟨pre, sel, suf, hdec, hroute, ?_, ?_⟩
  · rintro ⟨r, hr, hq⟩
    obtain ⟨q, hq2⟩ := Option.isSome_iff_exists.mp hq
    have heDr : eD r = .fin q := by simp [eD, (numDist_eDist hq2).1]
    have h1 := hall r hr
    rw [heDr] at h1
    obtain ⟨dsel, hdsel, _⟩ := edLt_fin_not_top h1
    rw [(distOkB_fin (hd' sel hselmem) hdsel).2]
    rfl
  · intro hmiss
    have htop : ∀ r ∈ rs, eD r = .top := by
      intro r hr
      obtain ⟨kvs, hkvs⟩ := distOkB_obj (hd' r hr)
      exact eD_top_of_no_distance hkvs (hmiss r hr)
    have hpre0 : pre = [] := by
      cases hpe : pre with
      | nil => rfl
      | cons p pre2 =>
          have hpmem : p ∈ rs := by
            rw [hdec, hpe]
            exact List.mem_append_left _ (List.mem_cons_self p pre2)
          have h1 := hpre p (by rw [hpe]; exact List.mem_cons_self p pre2)
          rw [htop sel hselmem, htop p hpmem] at h1
          exact absurd h1 (by simp [edLt])
    refine ⟨hpre0, ?_⟩
    have h3 : jlookup (okBody sel) "distance_m" = some (pyGetD sel "distance") := by
      simp [okBody, jlookup, alookup]
    rw [h3]
    simp only [pyGetD, hmiss sel hselmem]
    rfl

/-- C10 witness: two candidates both lacking `distance` instantiate the
theorem (the first is selected, `distance_m` is null). -/
theorem claim10_witness :
    ∃ pre sel suf, [noDistRouteA, noDistRouteB] = pre ++ sel :: suf ∧
      route defaultConfig (some scenarioBody)
          (.resp 200 "" (some (.obj [("routes", .arr [noDistRouteA, noDistRouteB])]))) =
        some ⟨200, okBody sel⟩ ∧
      ((∃ r ∈ [noDistRouteA, noDistRouteB], (numDist r).isSome = true) →
        (numDist sel).isSome = true) ∧
      ((∀ r ∈ [noDistRouteA, noDistRouteB], jlookup r "distance" = none) →
        pre = [] ∧ jlookup (okBody sel) "distance_m" = some .null) :=
  claim10_distance_default defaultConfig (some scenarioBody) ""
    [noDistRouteA, noDistRouteB] rfl rfl rfl

end RouteRelay
